import Mathlib

/-!
Verification of the ibis configuration-resolution engine and connection
handler (src/config.rs, src/core.rs) against its specification.

The configuration file is TOML; its parsed form (the `toml::Value` tree)
is embedded as the inductive `Toml` below.  Reading the file from disk and
running the external TOML grammar are outside the repository; the entry
point is therefore modelled over the outcome of those two external steps
(`FileInput`), while everything from the parsed tree onward is a direct
translation of `IbisConfig::init_with_file`.
-/

/-- Parsed TOML value tree, embedding `toml::Value` (the variants the
configuration code can observe: strings, integers, booleans, tables). -/
inductive Toml where
  | str (s : String)
  | int (n : Int)
  | bool (b : Bool)
  | table (kvs : List (String × Toml))

/-- Association-list lookup inside a TOML table (first match; a parsed
TOML table never holds duplicate keys). -/
def Toml.lookupKey : List (String × Toml) → String → Option Toml
  | [], _ => none
  | (k, v) :: rest, key => if k = key then some v else Toml.lookupKey rest key

/-- `toml::Value::get`: `Some` only when the value is a table holding the
key, `None` otherwise (also for non-table values). -/
def Toml.get : Toml → String → Option Toml
  | .table kvs, key => Toml.lookupKey kvs key
  | _, _ => none

/-- `toml::Value` bracket indexing (`value[key]`), which PANICS with the
message "index not found" when the key is absent or the value is not a
table.  The panic is embedded as the `Except.error` branch. -/
def Toml.index (v : Toml) (key : String) : Except String Toml :=
  match v.get key with
  | some x => .ok x
  | none => .error "index not found"

/-- `toml::Value::as_str`. -/
def Toml.as_str : Toml → Option String
  | .str s => some s
  | _ => none

/-- Deserialize a required `String` field: present and of string type. -/
def Toml.getStr (t : Toml) (key : String) : Option String :=
  match t.get key with
  | some (.str s) => some s
  | _ => none

/-- Deserialize a required unsigned-integer field (`usize` / `u64`):
present, of integer type, and non-negative (serde rejects negatives for
unsigned targets). -/
def Toml.getNat (t : Toml) (key : String) : Option Nat :=
  match t.get key with
  | some (.int n) => if n < 0 then none else some n.toNat
  | _ => none

/-- `IbisServerTokioConfig` (src/config.rs): the typed server section. -/
structure IbisServerTokioConfig where
  worker_threads : Nat
  blocking_threads : Nat
  keep_alive : Nat
  stack_size : Nat
  address : String
  port : String
deriving DecidableEq, Repr

/-- `impl Default for IbisServerTokioConfig` (src/config.rs). -/
def IbisServerTokioConfig.default : IbisServerTokioConfig :=
  { worker_threads := 5
    blocking_threads := 50
    keep_alive := 60
    stack_size := 3145728
    address := "127.0.0.1"
    port := "8000" }

/-- `IbisAppConfig` (src/config.rs). -/
structure IbisAppConfig where
  app_name : String
  version : String
deriving DecidableEq, Repr

/-- `impl Default for IbisAppConfig` (src/config.rs). -/
def IbisAppConfig.default : IbisAppConfig :=
  { app_name := "xxx", version := "1.0.0" }

/-- `IbisLoggerTracingConfig` (src/config.rs). -/
structure IbisLoggerTracingConfig where
  log_level : String
  logfile_path : String
  logfile_name : String
deriving DecidableEq, Repr

/-- `impl Default for IbisLoggerTracingConfig` (src/config.rs). -/
def IbisLoggerTracingConfig.default : IbisLoggerTracingConfig :=
  { log_level := "debug", logfile_path := "./output/logs", logfile_name := "app_log" }

/-- `IbisServerType` (src/config.rs): tagged server-backend variant. -/
inductive IbisServerType where
  | tokio (c : IbisServerTokioConfig)
deriving DecidableEq, Repr

/-- `impl Default for IbisServerType`. -/
def IbisServerType.default : IbisServerType :=
  .tokio IbisServerTokioConfig.default

/-- `IbisLoggerType` (src/config.rs): tagged logger variant. -/
inductive IbisLoggerType where
  | tracing (c : IbisLoggerTracingConfig)
deriving DecidableEq, Repr

/-- `impl Default for IbisLoggerType`. -/
def IbisLoggerType.default : IbisLoggerType :=
  .tracing IbisLoggerTracingConfig.default

/-- `IbisConfig` (src/config.rs): the aggregate resolved configuration. -/
structure IbisConfig where
  server_config : IbisServerType
  app_config : IbisAppConfig
  logger_config : IbisLoggerType
deriving DecidableEq, Repr

/-- `impl Default for IbisConfig`. -/
def IbisConfig.default : IbisConfig :=
  { server_config := IbisServerType.default
    app_config := IbisAppConfig.default
    logger_config := IbisLoggerType.default }

/-- Typed deserialization of `IbisServerTokioConfig`, embedding
`toml::from_str::<IbisServerTokioConfig>(&value.to_string())`: the source
re-serializes the sub-table and re-parses it into the derived
`Deserialize` struct, which succeeds exactly when the value is a table
carrying every required field with the right type (unknown extra keys are
ignored, missing or mistyped fields fail the whole struct). -/
def IbisServerTokioConfig.deserialize (v : Toml) : Option IbisServerTokioConfig := do
  let worker_threads ← v.getNat "worker_threads"
  let blocking_threads ← v.getNat "blocking_threads"
  let keep_alive ← v.getNat "keep_alive"
  let stack_size ← v.getNat "stack_size"
  let address ← v.getStr "address"
  let port ← v.getStr "port"
  pure { worker_threads, blocking_threads, keep_alive, stack_size, address, port }

/-- Typed deserialization of `IbisAppConfig` (same double-pass embedding). -/
def IbisAppConfig.deserialize (v : Toml) : Option IbisAppConfig := do
  let app_name ← v.getStr "app_name"
  let version ← v.getStr "version"
  pure { app_name, version }

/-- Typed deserialization of `IbisLoggerTracingConfig` (same embedding). -/
def IbisLoggerTracingConfig.deserialize (v : Toml) : Option IbisLoggerTracingConfig := do
  let log_level ← v.getStr "log_level"
  let logfile_path ← v.getStr "logfile_path"
  let logfile_name ← v.getStr "logfile_name"
  pure { log_level, logfile_path, logfile_name }

/-- Server-section resolution, src/config.rs lines 64-112.  `s["kind"]`
and `config["tokio"]` are the panicking bracket indexings; a panic
surfaces as `Except.error`. -/
def resolveServer (config : Toml) : Except String IbisServerType :=
  match config.get "server" with
  | some s =>
      match s.index "kind" with
      | .error e => .error e
      | .ok kindVal =>
          let server_type :=
            match kindVal.as_str with
            | some k => k
            | none => "tokio"
          if server_type = "tokio" then
            match config.index "tokio" with
            | .error e => .error e
            | .ok tv =>
                let tokio_config :=
                  match IbisServerTokioConfig.deserialize tv with
                  | some c => c
                  | none => IbisServerTokioConfig.default
                .ok (.tokio tokio_config)
          else
            .ok IbisServerType.default
  | none => .ok IbisServerType.default

/-- App-section resolution, src/config.rs lines 114-138 (no kind
discriminator; `config["app"]` is only indexed after `get` succeeded, so
no panic is reachable here). -/
def resolveApp (config : Toml) : IbisAppConfig :=
  match config.get "app" with
  | some a =>
      match IbisAppConfig.deserialize a with
      | some c => c
      | none => IbisAppConfig.default
  | none => IbisAppConfig.default

/-- Logger-section resolution, src/config.rs lines 140-189 (mirrors the
server section with kind "tracing" and top-level table "tracing"). -/
def resolveLogger (config : Toml) : Except String IbisLoggerType :=
  match config.get "logger" with
  | some s =>
      match s.index "kind" with
      | .error e => .error e
      | .ok kindVal =>
          let logger_type :=
            match kindVal.as_str with
            | some k => k
            | none => "tracing"
          if logger_type = "tracing" then
            match config.index "tracing" with
            | .error e => .error e
            | .ok tv =>
                let tracing_config :=
                  match IbisLoggerTracingConfig.deserialize tv with
                  | some c => c
                  | none => IbisLoggerTracingConfig.default
                .ok (.tracing tracing_config)
          else
            .ok IbisLoggerType.default
  | none => .ok IbisLoggerType.default

/-- Resolution of a successfully parsed tree, src/config.rs lines 63-197:
server section first, then app, then logger, aggregated into
`IbisConfig`.  A panic in either bracket indexing aborts the whole call
(`Except.error`). -/
def init_resolve (config : Toml) : Except String IbisConfig :=
  match resolveServer config with
  | .error e => .error e
  | .ok server_config =>
      let app_config := resolveApp config
      match resolveLogger config with
      | .error e => .error e
      | .ok logger_config => .ok { server_config, app_config, logger_config }

/-- Outcome of the two external steps of `init_with_file`: reading the
file bytes as UTF-8 text (`read_file`, src/config.rs lines 202-212) and
parsing them with the TOML grammar (`toml::from_str::<toml::Value>`).
`unreadable` covers a missing file, a permission error and non-UTF8
bytes; `parseError` covers truncated or otherwise invalid TOML syntax;
`parsed` carries the tree of a well-formed document (the empty document
parses to the empty table). -/
inductive FileInput where
  | unreadable
  | parseError
  | parsed (config : Toml)

/-- `IbisConfig::init_with_file`, src/config.rs lines 35-197: a read
failure or a parse failure falls back to the full default configuration;
a parsed tree is resolved section by section by `init_resolve`. -/
def IbisConfig.init_with_file : FileInput → Except String IbisConfig
  | .unreadable => .ok IbisConfig.default
  | .parseError => .ok IbisConfig.default
  | .parsed config => init_resolve config


/-- `tracing::Level`, the five verbosity levels. -/
inductive TracingLevel where
  | error
  | warn
  | info
  | debug
  | trace
deriving DecidableEq, Repr

/-- Value of an ASCII digit character, `none` for any other character. -/
def digitVal (c : Char) : Option Nat :=
  if 48 ≤ c.toNat ∧ c.toNat ≤ 57 then some (c.toNat - 48) else none

/-- Accumulate a decimal number over a run of characters; any non-digit
fails the whole parse. -/
def parseDigitsAux : List Char → Nat → Option Nat
  | [], acc => some acc
  | c :: cs, acc =>
      match digitVal c with
      | some d => parseDigitsAux cs (acc * 10 + d)
      | none => none

/-- Rust `usize::from_str` on the level string: optional single leading
plus sign, then one or more ASCII digits (an overflowing number and a
malformed number both fail the parse and both fall through to the name
match below, so the unbounded Nat result is an exact model of the
reachable behaviour). -/
def parseUsize (s : String) : Option Nat :=
  match s.toList with
  | [] => none
  | '+' :: cs =>
      match cs with
      | [] => none
      | _ => parseDigitsAux cs 0
  | cs => parseDigitsAux cs 0

/-- Lower-cased code point of a character, ASCII-only (Rust
`eq_ignore_ascii_case` folds only the ASCII range). -/
def lowerCode (c : Char) : Nat :=
  if 65 ≤ c.toNat ∧ c.toNat ≤ 90 then c.toNat + 32 else c.toNat

/-- Rust `str::eq_ignore_ascii_case`. -/
def eqIgnoreAsciiCase : List Char → List Char → Bool
  | [], [] => true
  | a :: as, b :: bs => lowerCode a = lowerCode b && eqIgnoreAsciiCase as bs
  | _, _ => false

/-- `tracing::Level::from_str` (the external parse the startup routine
calls): first the numeric spelling 1-5, then the case-insensitive level
names; anything else is a parse error (`none`). -/
def TracingLevel.from_str (s : String) : Option TracingLevel :=
  match parseUsize s with
  | some 1 => some .error
  | some 2 => some .warn
  | some 3 => some .info
  | some 4 => some .debug
  | some 5 => some .trace
  | _ =>
      if eqIgnoreAsciiCase s.toList "error".toList then some .error
      else if eqIgnoreAsciiCase s.toList "warn".toList then some .warn
      else if eqIgnoreAsciiCase s.toList "info".toList then some .info
      else if eqIgnoreAsciiCase s.toList "debug".toList then some .debug
      else if eqIgnoreAsciiCase s.toList "trace".toList then some .trace
      else none

/-- Log-level selection at startup, src/core.rs lines 58-67: a string
that parses keeps its parsed level, a parse failure falls back to
`Level::TRACE`. -/
def effectiveLogLevel (s : String) : TracingLevel :=
  match TracingLevel.from_str s with
  | some level => level
  | none => .trace

/-- The fixed literal response payload of the handler, src/core.rs
line 169. -/
def handlerResponse : String := "test"

/-- Outcome of one `socket.read` call: `ok n` is a successful read of
`n` bytes into the buffer (`n = 0` means the peer closed the socket),
`err` is an I/O error. -/
inductive ReadRes where
  | ok (n : Nat)
  | err
deriving DecidableEq, Repr

/-- One observable action of the per-connection handler task:
a read call with its outcome, a `write_all` call with the payload it was
asked to write in full and whether it succeeded, or an error-level log
message. -/
inductive HandlerAct where
  | readA (r : ReadRes)
  | writeA (payload : String) (ok : Bool)
  | logError (msg : String)
deriving DecidableEq, Repr

/-- The per-connection handler loop, src/core.rs lines 151-180, as the
trace of actions it performs.  `reads` is the (finite) script of read
outcomes the peer produces; `wo k` is the outcome of the k-th
`write_all` call.  A zero-byte read returns at once (peer closed); a
read error logs and returns; data triggers a full write of
`handlerResponse`, whose failure logs and returns, and whose success
loops back to reading.  When the read script is exhausted the handler is
suspended waiting for the peer and the trace ends. -/
def handlerLoop (wo : Nat → Bool) : List ReadRes → Nat → List HandlerAct
  | [], _ => []
  | .ok 0 :: _, _ => [.readA (.ok 0)]
  | .err :: _, _ => [.readA .err, .logError "failed to read from socket"]
  | .ok (n + 1) :: rest, k =>
      .readA (.ok (n + 1)) :: .writeA handlerResponse (wo k) ::
        (if wo k then handlerLoop wo rest (k + 1)
         else [.logError "failed to write to socket"])

/-- The payloads of the write calls in a handler trace. -/
def writesOf : List HandlerAct → List String
  | [] => []
  | .writeA p _ :: rest => p :: writesOf rest
  | _ :: rest => writesOf rest

/-- Whether an action is a write call. -/
def HandlerAct.isWrite : HandlerAct → Bool
  | .writeA _ _ => true
  | _ => false

/-- Whether an action is an error-level log. -/
def HandlerAct.isErrorLog : HandlerAct → Bool
  | .logError _ => true
  | _ => false

/-- Every successful non-empty read in the trace is immediately followed
by a `write_all` call of the full fixed payload. -/
def respondsAfterData : List HandlerAct → Bool
  | .readA (.ok (_ + 1)) :: rest =>
      (match rest with
       | .writeA p _ :: _ => p = handlerResponse
       | _ => false)
      && respondsAfterData rest
  | _ :: rest => respondsAfterData rest
  | [] => true


/-! ## Helper lemmas -/

/-- In every handler trace, each successful non-empty read is
immediately followed by a write of the full fixed payload. -/
theorem respondsAfterData_handlerLoop (wo : Nat → Bool) :
    ∀ (reads : List ReadRes) (k : Nat),
      respondsAfterData (handlerLoop wo reads k) = true := by
  intro reads
  induction reads with
  | nil => intro k; rfl
  | cons r rest ih =>
      intro k
      cases r with
      | err => rfl
      | ok n =>
          cases n with
          | zero => rfl
          | succ m =>
              simp only [handlerLoop, respondsAfterData]
              by_cases h : wo k = true
              · simp [h, ih (k + 1)]
              · simp [h, respondsAfterData]

/-- Every write in a handler trace carries the fixed payload. -/
theorem writesOf_handlerLoop (wo : Nat → Bool) :
    ∀ (reads : List ReadRes) (k : Nat),
      (writesOf (handlerLoop wo reads k)).all (fun p => p = handlerResponse) = true := by
  intro reads
  induction reads with
  | nil => intro k; rfl
  | cons r rest ih =>
      intro k
      cases r with
      | err => rfl
      | ok n =>
          cases n with
          | zero => rfl
          | succ m =>
              simp only [handlerLoop, writesOf]
              by_cases h : wo k = true
              · simp [h, ih (k + 1), writesOf]
              · simp [h, writesOf]

/-! ## Claim theorems -/

/-- Claim C1 (code bug): the claim states that `init_with_file` returns a
`ResolvedConfig` for every input byte sequence without panicking.  The
code violates it: on the well-formed TOML document consisting of the
single line `[server]` (a server table without a `kind` key) the bracket
indexing `s["kind"]` in src/config.rs line 69 panics with
"index not found" instead of falling back to the default the adjacent
comment promises.  This theorem evaluates the embedded code at that
input and exhibits the panic. -/
theorem C1_panic_on_missing_kind :
    IbisConfig.init_with_file (.parsed (.table [("server", .table [])])) =
      .error "index not found" := rfl

/-- Claim C2 (code bug): the claim states failure isolation by section -
a malformed `server` table must not alter a well-formed `logger`
section.  The code violates it: with a server table lacking a `kind` key
and a perfectly well-formed logger section, the logger section on its own
resolves to its declared values, yet `init_with_file` panics in the
server code before the logger section is ever resolved, so the
well-formed logger result is never produced. -/
theorem C2_panic_breaks_section_isolation :
    resolveLogger (.table [("server", .table []),
        ("logger", .table [("kind", .str "tracing")]),
        ("tracing", .table [("log_level", .str "info"),
          ("logfile_path", .str "/tmp/logs"), ("logfile_name", .str "app")])]) =
      .ok (.tracing ⟨"info", "/tmp/logs", "app"⟩) ∧
    IbisConfig.init_with_file (.parsed (.table [("server", .table []),
        ("logger", .table [("kind", .str "tracing")]),
        ("tracing", .table [("log_level", .str "info"),
          ("logfile_path", .str "/tmp/logs"), ("logfile_name", .str "app")])])) =
      .error "index not found" := ⟨rfl, rfl⟩

/-- Claim C3: for an empty configuration file (the empty TOML document
parses to the empty table) and for an unreadable file, `init_with_file`
returns the full default configuration, whose fields are exactly the
documented literals. -/
theorem C3_empty_or_absent_gives_default_literals :
    IbisConfig.init_with_file .unreadable = .ok IbisConfig.default ∧
    IbisConfig.init_with_file (.parsed (.table [])) = .ok IbisConfig.default ∧
    IbisConfig.default =
      ⟨.tokio ⟨5, 50, 60, 3145728, "127.0.0.1", "8000"⟩,
       ⟨"xxx", "1.0.0"⟩,
       .tracing ⟨"debug", "./output/logs", "app_log"⟩⟩ :=
  ⟨rfl, rfl, rfl⟩

/-- Claim C4: section fallback is all-or-nothing.  A configuration that
selects the known server kind but whose kind table sets only
`worker_threads = 10` fails typed deserialization as a whole, and the
resolved server section is the full compiled-in default with
`worker_threads = 5`, not a partial merge of 10 with the other
defaults. -/
theorem C4_all_or_nothing_section_fallback :
    IbisConfig.init_with_file (.parsed (.table [
        ("server", .table [("kind", .str "tokio")]),
        ("tokio", .table [("worker_threads", .int 10)])])) =
      .ok { server_config := .tokio IbisServerTokioConfig.default,
            app_config := IbisAppConfig.default,
            logger_config := IbisLoggerType.default } ∧
    IbisServerTokioConfig.deserialize (.table [("worker_threads", .int 10)]) =
      none ∧
    IbisServerTokioConfig.default.worker_threads = 5 :=
  ⟨rfl, rfl, rfl⟩

/-- Claim C5 counterexample: the claim states that whenever the server
section carries an unknown kind string, `init_with_file` resolves that
section to the default variant rather than failing, regardless of any
other content in the file.  False: with server kind "hoge" (unknown) and
a logger table lacking a `kind` key elsewhere in the file,
`init_with_file` panics and returns no configuration at all. -/
theorem C5_counterexample :
    ¬ ∃ c : IbisConfig,
      IbisConfig.init_with_file (.parsed (.table [
          ("server", .table [("kind", .str "hoge")]),
          ("logger", .table [])])) = .ok c := by
  intro h
  obtain ⟨c, hc⟩ := h
  rw [show IbisConfig.init_with_file (.parsed (.table [
      ("server", .table [("kind", .str "hoge")]),
      ("logger", .table [])])) = .error "index not found" from rfl] at hc
  exact Except.noConfusion hc

/-- Claim C5 (amended): for every configuration whose server (or logger)
section carries a kind string not among the known set, that section
resolves to the single known default variant with compiled-in defaults,
regardless of any other content in the file, provided resolution of the
other section does not panic (its kind lookup succeeds, e.g. the
section resolves at all). -/
theorem C5_unknown_kind_falls_back_to_default :
    (∀ (config s kv : Toml) (k : String) (lc : IbisLoggerType),
      config.get "server" = some s →
      s.index "kind" = .ok kv →
      kv.as_str = some k →
      k ≠ "tokio" →
      resolveLogger config = .ok lc →
      IbisConfig.init_with_file (.parsed config) =
        .ok { server_config := IbisServerType.default,
              app_config := resolveApp config,
              logger_config := lc }) ∧
    (∀ (config s kv : Toml) (k : String) (sc : IbisServerType),
      config.get "logger" = some s →
      s.index "kind" = .ok kv →
      kv.as_str = some k →
      k ≠ "tracing" →
      resolveServer config = .ok sc →
      IbisConfig.init_with_file (.parsed config) =
        .ok { server_config := sc,
              app_config := resolveApp config,
              logger_config := IbisLoggerType.default }) := by
  constructor
  · intro config s kv k lc hs hk hstr hne hl
    simp [IbisConfig.init_with_file, init_resolve, resolveServer, hs, hk, hstr, hne, hl]
  · intro config s kv k sc hs hk hstr hne hsv
    simp [IbisConfig.init_with_file, init_resolve, resolveLogger, hs, hk, hstr, hne, hsv]

/-- Witness for C5: a concrete configuration with unknown server kind
"hoge" and unknown logger kind "nope" resolves both sections to their
defaults. -/
theorem C5_unknown_kind_falls_back_to_default_witness :
    IbisConfig.init_with_file (.parsed (.table [
        ("server", .table [("kind", .str "hoge")]),
        ("logger", .table [("kind", .str "nope")])])) =
      .ok { server_config := IbisServerType.default,
            app_config := IbisAppConfig.default,
            logger_config := IbisLoggerType.default } :=
  C5_unknown_kind_falls_back_to_default.1 _ _ _ "hoge" IbisLoggerType.default
    rfl rfl rfl (by decide) rfl

/-- Claim C6: round-trip fidelity.  For every configuration in which a
section and its kind table declare all required fields with correct
types, each declared field value is carried verbatim through the
re-serialize-then-deserialize extraction into the resolved typed
struct. -/
theorem C6_round_trip_fidelity :
    (∀ (config s tv : Toml) (wt bt ka ss : Nat) (addr port : String),
      config.get "server" = some s →
      s.index "kind" = .ok (.str "tokio") →
      config.index "tokio" = .ok tv →
      tv.getNat "worker_threads" = some wt →
      tv.getNat "blocking_threads" = some bt →
      tv.getNat "keep_alive" = some ka →
      tv.getNat "stack_size" = some ss →
      tv.getStr "address" = some addr →
      tv.getStr "port" = some port →
      resolveServer config = .ok (.tokio ⟨wt, bt, ka, ss, addr, port⟩)) ∧
    (∀ (config a : Toml) (an ver : String),
      config.get "app" = some a →
      a.getStr "app_name" = some an →
      a.getStr "version" = some ver →
      resolveApp config = ⟨an, ver⟩) ∧
    (∀ (config s tv : Toml) (ll lp ln : String),
      config.get "logger" = some s →
      s.index "kind" = .ok (.str "tracing") →
      config.index "tracing" = .ok tv →
      tv.getStr "log_level" = some ll →
      tv.getStr "logfile_path" = some lp →
      tv.getStr "logfile_name" = some ln →
      resolveLogger config = .ok (.tracing ⟨ll, lp, ln⟩)) := by
  refine ⟨?_, ?_, ?_⟩
  · intro config s tv wt bt ka ss addr port hs hk ht h1 h2 h3 h4 h5 h6
    simp [resolveServer, hs, hk, Toml.as_str, ht,
      IbisServerTokioConfig.deserialize, h1, h2, h3, h4, h5, h6]
  · intro config a an ver ha h1 h2
    simp [resolveApp, ha, IbisAppConfig.deserialize, h1, h2]
  · intro config s tv ll lp ln hs hk ht h1 h2 h3
    simp [resolveLogger, hs, hk, Toml.as_str, ht,
      IbisLoggerTracingConfig.deserialize, h1, h2, h3]

/-- Witness for C6: a concrete fully-declared configuration carries all
eleven declared field values verbatim into the three resolved
sections. -/
theorem C6_round_trip_fidelity_witness :
    resolveServer (.table [("server", .table [("kind", .str "tokio")]),
        ("tokio", .table [("worker_threads", .int 7), ("blocking_threads", .int 8),
          ("keep_alive", .int 9), ("stack_size", .int 10),
          ("address", .str "0.0.0.0"), ("port", .str "9000")])]) =
      .ok (.tokio ⟨7, 8, 9, 10, "0.0.0.0", "9000"⟩) ∧
    resolveApp (.table [("app", .table [("app_name", .str "myapp"),
        ("version", .str "2.0")])]) = ⟨"myapp", "2.0"⟩ ∧
    resolveLogger (.table [("logger", .table [("kind", .str "tracing")]),
        ("tracing", .table [("log_level", .str "info"),
          ("logfile_path", .str "/var/log"), ("logfile_name", .str "ibis")])]) =
      .ok (.tracing ⟨"info", "/var/log", "ibis"⟩) :=
  ⟨C6_round_trip_fidelity.1 _ _ _ 7 8 9 10 "0.0.0.0" "9000"
      rfl rfl rfl rfl rfl rfl rfl rfl rfl,
   C6_round_trip_fidelity.2.1 _ _ "myapp" "2.0" rfl rfl rfl,
   C6_round_trip_fidelity.2.2 _ _ _ "info" "/var/log" "ibis"
      rfl rfl rfl rfl rfl rfl⟩

/-- Claim C7: for every connection whose first read returns zero bytes,
the handler terminates at once: its trace is exactly the one read
action, so it performs no write and logs no error. -/
theorem C7_zero_first_read_closes :
    ∀ (wo : Nat → Bool) (rest : List ReadRes) (k : Nat),
      handlerLoop wo (.ok 0 :: rest) k = [.readA (.ok 0)] ∧
      (handlerLoop wo (.ok 0 :: rest) k).all
        (fun a => !a.isWrite && !a.isErrorLog) = true :=
  fun _ _ _ => ⟨rfl, rfl⟩

/-- Claim C8: every successful non-empty read is answered by a
`write_all` of the full fixed payload before the handler returns to
reading, for every read script and every write-outcome oracle; and in
the concrete two-request scenario (a 5-byte read, then a 3-byte read,
then peer close) each request receives the full literal response on the
same connection. -/
theorem C8_read_respond_loop :
    (∀ (wo : Nat → Bool) (reads : List ReadRes) (k : Nat),
      respondsAfterData (handlerLoop wo reads k) = true) ∧
    handlerLoop (fun _ => true) [.ok 5, .ok 3, .ok 0] 0 =
      [.readA (.ok 5), .writeA handlerResponse true,
       .readA (.ok 3), .writeA handlerResponse true, .readA (.ok 0)] :=
  ⟨fun wo => respondsAfterData_handlerLoop wo, rfl⟩

/-- Claim C9: every log-level string that does not parse as a recognized
level degrades the effective startup log level to the most verbose
level, TRACE. -/
theorem C9_unrecognized_level_becomes_trace :
    ∀ s : String, TracingLevel.from_str s = none →
      effectiveLogLevel s = .trace := by
  intro s h
  simp [effectiveLogLevel, h]

/-- Witness for C9: the unrecognized level string "verbose" resolves to
TRACE. -/
theorem C9_unrecognized_level_becomes_trace_witness :
    TracingLevel.from_str "verbose" = none ∧
    effectiveLogLevel "verbose" = .trace :=
  ⟨by decide, C9_unrecognized_level_becomes_trace "verbose" (by decide)⟩

/-- Claim C10: the fixed response payload is exactly the 4-byte ASCII
string "test", and every write in every handler trace (any read script,
any write-outcome oracle, so across all requests and connections)
carries exactly that payload. -/
theorem C10_fixed_payload_is_test :
    handlerResponse = "test" ∧
    handlerResponse.toList.map Char.toNat = [116, 101, 115, 116] ∧
    handlerResponse.length = 4 ∧
    (∀ (wo : Nat → Bool) (reads : List ReadRes) (k : Nat),
      (writesOf (handlerLoop wo reads k)).all
        (fun p => p = handlerResponse) = true) :=
  ⟨rfl, by decide, by decide, fun wo => writesOf_handlerLoop wo⟩
